import Mathlib

/-!
Verification of the repeat-expansion extraction pipeline
(`repeat_expansion_variants/pipeline.py`).

The pipeline loads ClinVar "NT expansion" variants, parses each variant
identifier, resolves Ensembl gene IDs/names through BioMart in three
priority-ordered passes, classifies the repeat type of each record, and
writes two output tables (a full debug table and a six-column consequences
table).

The embedding below renders each dataframe row as a structure; a missing
(NaN) cell is `none`.  The BioMart collaborator is a pure parameter
`GeneLookupService`: given the BioMart key column name and one identifier it
returns the list of matching values, the empty list meaning the identifier
is absent from the service response (`query_biomart` omits identifiers with
no match, so a left merge leaves NaN there).
-/

/-- String prefix test on the underlying character lists (the embedding's
rendering of Python `str.startswith`); written on `List Char` so that it
evaluates by kernel reduction. -/
def chStarts : List Char → List Char → Bool
  | [], _ => true
  | _ :: _, [] => false
  | p :: ps, c :: cs => p == c && chStarts ps cs

/-- `strStarts p s` is Python `s.startswith(p)`. -/
def strStarts (p s : String) : Bool := chStarts p.data s.data

/-- Pandas `Series.max()` over a list of numbers: `none` on the empty
series, mirroring the NaN that `max()` yields there (and `NaN == 1` is
false, so an assertion comparing the max with 1 fails on an empty series). -/
def seriesMax : List Nat → Option Nat
  | [] => none
  | a :: l =>
    match seriesMax l with
    | none => some a
    | some b => some (max a b)

/-- One variant row after `load_clinvar_data` and `parse_variant_identifier`:
columns `Name`, `RCVaccession`, `GeneSymbol`, `HGNC_ID` from the ClinVar
dump plus the four parsed columns.  `GeneSymbol` uses the `-` sentinel for
an absent symbol; `HGNC_ID` is `none` when the cell is NaN. -/
structure VariantRecord where
  Name : String
  RCVaccession : String
  GeneSymbol : String
  HGNC_ID : Option String
  TranscriptID : Option String
  CoordinateSpan : Option Int
  RepeatUnitLength : Option Int
  IsProteinHGVS : Bool
deriving DecidableEq

/-- Row state during the three gene-annotation passes: the `EnsemblGeneID`
cell as received from BioMart is list-valued (one key can resolve to several
genes) until the dataframe is exploded by that column. -/
structure AnnState extends VariantRecord where
  EnsemblGeneIDs : Option (List String)
  GeneAnnotationSource : Option String
deriving DecidableEq

/-- Row after `explode('EnsemblGeneID')` and the left merge with the gene
name lookup: the `EnsemblGeneName` cell is still list-valued. -/
structure RowNamed extends VariantRecord where
  EnsemblGeneID : Option String
  GeneAnnotationSource : Option String
  EnsemblGeneNames : Option (List String)
deriving DecidableEq

/-- Row at the end of `annotate_ensembl_gene_info`, after
`explode('EnsemblGeneName')`. -/
structure AnnotatedRow extends VariantRecord where
  EnsemblGeneID : Option String
  EnsemblGeneName : Option String
  GeneAnnotationSource : Option String
deriving DecidableEq

/-- Row after `determine_repeat_type`. -/
structure ClassifiedRow extends AnnotatedRow where
  RepeatType : Option String
  RecordIsComplete : Bool
deriving DecidableEq

/-- One row of the six-column consequences table
(`RCVaccession, 1, EnsemblGeneID, EnsemblGeneName, RepeatType, 0`).
`RepeatType` stays nullable until the final no-empty-cells assertion. -/
structure ConsRow where
  RCVaccession : String
  PlaceholderOnes : Nat
  EnsemblGeneID : String
  EnsemblGeneName : String
  RepeatType : Option String
  PlaceholderZeroes : Nat
deriving DecidableEq

/-- An output file written by `generate_output_files`. -/
inductive FileOut
  | debugTable (rows : List ClassifiedRow)
  | consequencesTable (rows : List ConsRow)
deriving DecidableEq

/-- The BioMart collaborator: BioMart key column name and one identifier to
the list of values found for it (empty list when the identifier has no
match and is therefore absent from the response). -/
abbrev GeneLookupService := String → String → List String

/-! ### Gene annotation resolver (`annotate_ensembl_gene_info`) -/

/-- Eligibility of a row's `HGNC_ID` cell for the first annotation pass:
the filtering function is `lambda i: i.startswith('HGNC:')`. -/
def hgnc_eligible (r : VariantRecord) : Option String :=
  match r.HGNC_ID with
  | some i => if strStarts "HGNC:" i then some i else none
  | none => none

/-- Eligibility of a row's `GeneSymbol` cell for the second pass: the
filtering function is `lambda i: i != '-'`. -/
def geneSymbol_eligible (r : VariantRecord) : Option String :=
  if r.GeneSymbol = "-" then none else some r.GeneSymbol

/-- Eligibility of a row's `TranscriptID` cell for the third pass: the
filtering function is `pd.notnull`. -/
def transcript_eligible (r : VariantRecord) : Option String :=
  r.TranscriptID

/-- The first pass builds its identifier set by applying
`i.startswith('HGNC:')` to every `HGNC_ID` cell with no null guard; a NaN
cell is a float and raises.  The collected set itself is consumed by the
batched BioMart query, which the embedding replays per key through the pure
service, so only the raising behaviour of this step is observable. -/
def collect_hgnc_identifiers : List VariantRecord → Except String (List String)
  | [] => .ok []
  | r :: rest =>
    match r.HGNC_ID with
    | none => .error "AttributeError: float object has no attribute startswith"
    | some i =>
      match collect_hgnc_identifiers rest with
      | .error e => .error e
      | .ok l => .ok (if strStarts "HGNC:" i then i :: l else l)

/-- One annotation pass on one row: the merge with the pass's BioMart
response followed by `combine_first`, which only fills cells that are still
NaN.  A row is joined when its key cell passed the pass's filter (it is then
in the queried set) and the service returned at least one gene ID for it;
the `EnsemblGeneID` and `GeneAnnotationSource` cells of a row are filled
together, so the NaN test on `EnsemblGeneIDs` gates both. -/
def fillFrom (svc : GeneLookupService) (column_name_in_dataframe column_name_in_biomart : String)
    (eligible_key : Option String) (st : AnnState) : AnnState :=
  if st.EnsemblGeneIDs.isSome then st
  else
    match eligible_key with
    | none => st
    | some k =>
      match svc column_name_in_biomart k with
      | [] => st
      | gids => { st with EnsemblGeneIDs := some gids,
                          GeneAnnotationSource := some column_name_in_dataframe }

/-- The three gene-annotation passes on one row, in the fixed order of
`gene_annotation_sources`: `HGNC_ID`, then `GeneSymbol`, then
`TranscriptID`. -/
def annotate_record_ids (svc : GeneLookupService) (r : VariantRecord) : AnnState :=
  fillFrom svc "TranscriptID" "refseq_mrna" (transcript_eligible r)
    (fillFrom svc "GeneSymbol" "external_gene_name" (geneSymbol_eligible r)
      (fillFrom svc "HGNC_ID" "hgnc_id" (hgnc_eligible r)
        { toVariantRecord := r, EnsemblGeneIDs := none, GeneAnnotationSource := none }))

/-- Pandas `explode` on one list-valued cell: one row per element, while a
NaN cell (or an empty list) keeps a single row with a NaN cell. -/
def explodeCell {α : Type} : Option (List α) → List (Option α)
  | none => [none]
  | some [] => [none]
  | some l => l.map some

/-- The gene-name cell a row receives from the second BioMart lookup: the
queried identifier set is `{str(i) for i in EnsemblGeneID if
str(i).startswith('ENSG')}`, and the left merge leaves NaN for rows whose
gene ID was not queried or not found. -/
def gene_name_cell (svc : GeneLookupService) (gid : Option String) : Option (List String) :=
  match gid with
  | none => none
  | some g =>
    if strStarts "ENSG" g then
      match svc "ensembl_gene_id" g with
      | [] => none
      | names => some names
    else none

/-- All rows arising from one input record: the three passes, the explode by
`EnsemblGeneID`, and the merge with the gene-name lookup. -/
def annotate_record (svc : GeneLookupService) (r : VariantRecord) : List RowNamed :=
  let st := annotate_record_ids svc r
  (explodeCell st.EnsemblGeneIDs).map fun gid =>
    { toVariantRecord := r, EnsemblGeneID := gid,
      GeneAnnotationSource := st.GeneAnnotationSource,
      EnsemblGeneNames := gene_name_cell svc gid }

/-- `explode('EnsemblGeneName')` on one row. -/
def explode_gene_names (row : RowNamed) : List AnnotatedRow :=
  (explodeCell row.EnsemblGeneNames).map fun nm =>
    { toVariantRecord := row.toVariantRecord, EnsemblGeneID := row.EnsemblGeneID,
      EnsemblGeneName := nm, GeneAnnotationSource := row.GeneAnnotationSource }

/-- The series `variants['EnsemblGeneName'].str.len().dropna()`: the length
of each non-NaN (list-valued) gene-name cell. -/
def name_list_lengths (rows : List RowNamed) : List Nat :=
  rows.filterMap fun row => row.EnsemblGeneNames.map List.length

/-- `annotate_ensembl_gene_info`: three priority-ordered passes filling
`EnsemblGeneID`/`GeneAnnotationSource`, explode by gene ID, gene-name
lookup, the gene-name uniqueness assertion, and the final explode by gene
name.  Errors are the AttributeError raised while collecting the first
pass's identifiers and the AssertionError of the uniqueness check. -/
def annotate_ensembl_gene_info (svc : GeneLookupService) (variants : List VariantRecord) :
    Except String (List AnnotatedRow) :=
  match collect_hgnc_identifiers variants with
  | .error e => .error e
  | .ok _ =>
    let rows := variants.flatMap (annotate_record svc)
    if seriesMax (name_list_lengths rows) = some 1 then
      .ok (rows.flatMap explode_gene_names)
    else
      .error "Multiple gene ID → gene name mappings found!"

/-! ### Repeat type classifier (`determine_repeat_type`) -/

/-- `determine_repeat_type`: protein HGVS records are trinucleotide
unconditionally; otherwise the repeat unit length (falling back to the
coordinate span) decides by divisibility by 3; with neither available the
repeat type stays NaN.  `RecordIsComplete` is the conjunction of the three
`pd.notnull` tests. -/
def determine_repeat_type (row : AnnotatedRow) : ClassifiedRow :=
  let repeat_type : Option String :=
    if row.IsProteinHGVS then
      some "trinucleotide_repeat_expansion"
    else
      let repeat_unit_length :=
        match row.RepeatUnitLength with
        | none => row.CoordinateSpan
        | some v => some v
      match repeat_unit_length with
      | some l =>
        if l % 3 = 0 then some "trinucleotide_repeat_expansion"
        else some "short_tandem_repeat_expansion"
      | none => none
  { toAnnotatedRow := row, RepeatType := repeat_type,
    RecordIsComplete := row.EnsemblGeneID.isSome && row.EnsemblGeneName.isSome
      && repeat_type.isSome }

/-! ### Output generation (`generate_output_files`) -/

/-- The group key a row contributes to
`variants[variants['RecordIsComplete']].groupby(['RCVaccession',
'EnsemblGeneID', 'EnsemblGeneName'])`: only rows whose completeness flag is
set survive the filter, and groupby drops rows with a NaN key cell. -/
def completeKey (r : ClassifiedRow) : Option (String × String × String) :=
  if r.RecordIsComplete then
    match r.EnsemblGeneID, r.EnsemblGeneName with
    | some g, some n => some (r.RCVaccession, g, n)
    | _, _ => none
  else none

/-- The distinct group keys of the consequences groupby. -/
def groupKeys (rows : List ClassifiedRow) : List (String × String × String) :=
  (rows.filterMap completeKey).dedup

/-- The `set` of `RepeatType` values of one group. -/
def groupTypes (rows : List ClassifiedRow) (k : String × String × String) :
    List (Option String) :=
  (rows.filterMap fun r => if completeKey r = some k then some r.RepeatType else none).dedup

/-- One exploded consequences row with the two placeholder columns. -/
def consRowOf (k : String × String × String) (t : Option String) : ConsRow :=
  ⟨k.1, 1, k.2.1, k.2.2, t, 0⟩

/-- Strict character-list order underlying the sort of the consequences
table. -/
def chLt : List Char → List Char → Bool
  | [], [] => false
  | [], _ :: _ => true
  | _ :: _, [] => false
  | x :: xs, y :: ys =>
    if x.toNat < y.toNat then true
    else if y.toNat < x.toNat then false
    else chLt xs ys

/-- Total string order used by `sort_values`. -/
def strLeB (a b : String) : Bool := !(chLt b.data a.data)

/-- Order on nullable strings: NaN sorts last, as in pandas `sort_values`. -/
def optStrLe : Option String → Option String → Bool
  | none, none => true
  | none, some _ => false
  | some _, none => true
  | some a, some b => strLeB a b

/-- `sort_values(by=['RepeatType', 'RCVaccession', 'EnsemblGeneID'])`:
lexicographic order on the three sort columns. -/
def consLe (a b : ConsRow) : Bool :=
  if a.RepeatType = b.RepeatType then
    if a.RCVaccession = b.RCVaccession then strLeB a.EnsemblGeneID b.EnsemblGeneID
    else strLeB a.RCVaccession b.RCVaccession
  else optStrLe a.RepeatType b.RepeatType

/-- Insertion into a sorted list, for the embedding of `sort_values`. -/
def insertLe {α : Type} (le : α → α → Bool) (a : α) : List α → List α
  | [] => [a]
  | b :: l => if le a b then a :: b :: l else b :: insertLe le a l

/-- Insertion sort, the embedding of `sort_values`. -/
def sortLe {α : Type} (le : α → α → Bool) : List α → List α
  | [] => []
  | a :: l => insertLe le a (sortLe le l)

/-- The consequences table: filter by `RecordIsComplete`, group by
(RCV, gene ID, gene name) collecting the set of repeat types, assert that
every group has exactly one type (`max() == 1`, which also fails when there
are no complete rows at all), explode the sets, add the placeholder
columns, sort, and assert that no cell is null. -/
def buildConsequences (rows : List ClassifiedRow) : Except String (List ConsRow) :=
  if seriesMax ((groupKeys rows).map fun k => (groupTypes rows k).length) = some 1 then
    if (sortLe consLe ((groupKeys rows).flatMap fun k =>
          (groupTypes rows k).map (consRowOf k))).all (fun c => c.RepeatType.isSome) then
      .ok (sortLe consLe ((groupKeys rows).flatMap fun k =>
        (groupTypes rows k).map (consRowOf k)))
    else .error "AssertionError: null cells in the final consequences table"
  else .error "Multiple (RCV, gene) → variant type mappings!"

/-- `generate_output_files`: the full debug table is written first (line
158), then the consequences table is built; its assertions abort the run
after the debug write but before the consequences write. -/
def generate_output_files (variants : List ClassifiedRow) : List FileOut × Option String :=
  match buildConsequences variants with
  | .error e => ([FileOut.debugTable variants], some e)
  | .ok cons => ([FileOut.debugTable variants, FileOut.consequencesTable cons], none)

/-- The `main` stages downstream of identifier parsing: gene annotation,
row-wise classification, output generation.  (Lean reserves the name `main`
for entry points, hence the prefixed name.)  A failure inside
`annotate_ensembl_gene_info` aborts before `generate_output_files` runs, so
nothing is written. -/
def pipeline_main (svc : GeneLookupService) (variants : List VariantRecord) :
    List FileOut × Option String :=
  match annotate_ensembl_gene_info svc variants with
  | .error e => ([], some e)
  | .ok rows => generate_output_files (rows.map determine_repeat_type)

/-! ### Identifier parser (`clinvar_identifier_parsing.parse_variant_identifier`)

The module `clinvar_identifier_parsing` is imported by the pipeline but its
source is not part of this repository checkout, so the parser below is
modelled from the specification of its contract rather than translated from
code. -/

/-- The result of parsing one variant name: the 4-tuple
(transcriptId, coordinateSpan, repeatUnitLength, isProteinHgvs). -/
structure ParsedIdentifier where
  transcriptId : Option String
  coordinateSpan : Option Int
  repeatUnitLength : Option Int
  isProteinHgvs : Bool
deriving DecidableEq

/-- The characters after the first occurrence of the marker `pat`, or
`none` when the marker does not occur. -/
def afterMarker (pat : List Char) : List Char → Option (List Char)
  | [] => none
  | c :: cs =>
    if chStarts pat (c :: cs) then some (List.drop pat.length (c :: cs))
    else afterMarker pat cs

/-- The characters before the first occurrence of the marker `pat`, or
`none` when the marker does not occur. -/
def beforeMarker (pat : List Char) : List Char → Option (List Char)
  | [] => none
  | c :: cs =>
    if chStarts pat (c :: cs) then some []
    else (beforeMarker pat cs).map (c :: ·)

/-- Split a character list on a separator character. -/
def splitOnCh (sep : Char) : List Char → List (List Char)
  | [] => [[]]
  | c :: cs =>
    let r := splitOnCh sep cs
    if c == sep then [] :: r
    else
      match r with
      | h :: t => (c :: h) :: t
      | [] => [[c]]

/-- A nonempty run of decimal digits as a number, `none` otherwise. -/
def digitsToNat? (l : List Char) : Option Nat :=
  if l ≠ [] ∧ l.all Char.isDigit then
    some (l.foldl (fun n c => 10 * n + (c.toNat - 48)) 0)
  else none

/-- Modelled from the spec: a name uses protein-level HGVS when it carries a
`p.` marker (a `p.` prefix or a `:p.` segment, e.g.
`NP_000035.2:p.(Gln23_Gln24ins...)`). -/
def isProteinHgvsName (s : String) : Bool :=
  strStarts "p." s || (afterMarker ":p.".data s.data).isSome

/-- Modelled from the spec: the RefSeq transcript accession of a nucleotide
HGVS name of the shape `NM_###.#(GENE):c...` is the part before the
parenthesised gene symbol. -/
def extractTranscriptId (s : String) : Option String :=
  if strStarts "NM_" s then
    (beforeMarker "(".data s.data).map List.asString
  else none

/-- Modelled from the spec: when the `c.` part of a nucleotide HGVS name
encodes an integer coordinate range `start_end`, the coordinate span is
`end - start`; otherwise it is null. -/
def extractCoordinateSpan (s : String) : Option Int :=
  match afterMarker ":c.".data s.data with
  | none => none
  | some rest =>
    match splitOnCh '_' (rest.takeWhile fun c => c.isDigit || c == '_') with
    | [a, b] =>
      match digitsToNat? a, digitsToNat? b with
      | some x, some y => some ((y : Int) - (x : Int))
      | _, _ => none
    | _ => none

/-- Modelled from the spec: when the name carries a literal repeated base
sequence followed by a bracketed repeat count (e.g. `...CAG[23]`), the
repeat unit length is the length of that literal sequence (not the copy
count); otherwise it is null. -/
def extractRepeatUnitLength (s : String) : Option Int :=
  match beforeMarker "[".data s.data with
  | none => none
  | some seg =>
    let unit := seg.reverse.takeWhile fun c => c == 'A' || c == 'C' || c == 'G' || c == 'T'
    if unit.isEmpty then none else some (unit.length : Int)

/-- Modelled from the spec: the identifier parser is a total function from
an arbitrary name string to a structurally valid `ParsedIdentifier`.
Protein HGVS names get `isProteinHgvs = true` and null extraction fields;
otherwise each extraction strategy reports independently, and a name none
of them recognises yields all-null fields with `isProteinHgvs = false`. -/
def clinvar_identifier_parsing.parse_variant_identifier (name : String) : ParsedIdentifier :=
  if isProteinHgvsName name then
    ⟨none, none, none, true⟩
  else
    ⟨extractTranscriptId name, extractCoordinateSpan name, extractRepeatUnitLength name, false⟩

/-- The raw columns of one row before identifier parsing. -/
structure RawRecord where
  Name : String
  RCVaccession : String
  GeneSymbol : String
  HGNC_ID : Option String
deriving DecidableEq

/-- The pipeline's row-wise `parse_variant_identifier`: stringify the name,
run the identifier parser and store the four results as new columns
(`none_to_nan` renders the parser's `None`s as the NaNs our `Option`
cells already are). -/
def parse_variant_identifier (row : RawRecord) : VariantRecord :=
  let p := clinvar_identifier_parsing.parse_variant_identifier row.Name
  { Name := row.Name, RCVaccession := row.RCVaccession, GeneSymbol := row.GeneSymbol,
    HGNC_ID := row.HGNC_ID, TranscriptID := p.transcriptId,
    CoordinateSpan := p.coordinateSpan, RepeatUnitLength := p.repeatUnitLength,
    IsProteinHGVS := p.isProteinHgvs }

/-! ### Concrete inputs used by witnesses and counterexamples -/

/-- A sample lookup service: `HGNC:1` resolves to one gene, `HGNC:2` to
two (as HGNC:10560 does in the source's comment), and each gene ID has one
name. -/
def svcW : GeneLookupService := fun col i =>
  if col = "hgnc_id" && i = "HGNC:1" then ["ENSG01"]
  else if col = "hgnc_id" && i = "HGNC:2" then ["ENSG02", "ENSG03"]
  else if col = "ensembl_gene_id" && i = "ENSG01" then ["G1"]
  else if col = "ensembl_gene_id" && i = "ENSG02" then ["G2"]
  else if col = "ensembl_gene_id" && i = "ENSG03" then ["G3"]
  else []

/-- A lookup service that never finds anything. -/
def svcNull : GeneLookupService := fun _ _ => []

/-- A lookup service mapping gene ID `ENSG01` to two gene names. -/
def svcDupNames : GeneLookupService := fun col i =>
  if col = "hgnc_id" && i = "HGNC:1" then ["ENSG01"]
  else if col = "ensembl_gene_id" && i = "ENSG01" then ["G1", "G1b"]
  else []

/-- A record with a well-formed resolvable HGNC ID and repeat unit length 3. -/
def rHgnc1 : VariantRecord :=
  { Name := "N1", RCVaccession := "RCV1", GeneSymbol := "AR", HGNC_ID := some "HGNC:1",
    TranscriptID := none, CoordinateSpan := none, RepeatUnitLength := some 3,
    IsProteinHGVS := false }

/-- A record whose HGNC ID resolves to two genes. -/
def rHgnc2 : VariantRecord :=
  { rHgnc1 with Name := "N2", HGNC_ID := some "HGNC:2", RepeatUnitLength := some 4 }

/-- A record sharing `rHgnc1`'s RCV and gene but classifying to the other
repeat type (repeat unit length 4). -/
def rConflict : VariantRecord :=
  { rHgnc1 with Name := "N3", RepeatUnitLength := some 4 }

/-- A record whose `HGNC_ID` cell is NaN. -/
def rNull : VariantRecord := { rHgnc1 with HGNC_ID := none }

/-- The annotated row the resolver produces for `rHgnc1` under `svcW`. -/
def outW1 : AnnotatedRow :=
  { toVariantRecord := rHgnc1, EnsemblGeneID := some "ENSG01",
    EnsemblGeneName := some "G1", GeneAnnotationSource := some "HGNC_ID" }

/-- The two annotated rows the resolver produces for `rHgnc2` under `svcW`. -/
def outW2 : List AnnotatedRow :=
  [{ toVariantRecord := rHgnc2, EnsemblGeneID := some "ENSG02",
     EnsemblGeneName := some "G2", GeneAnnotationSource := some "HGNC_ID" },
   { toVariantRecord := rHgnc2, EnsemblGeneID := some "ENSG03",
     EnsemblGeneName := some "G3", GeneAnnotationSource := some "HGNC_ID" }]

/-- A fully annotated row (complete after classification). -/
def aComplete : AnnotatedRow := outW1

/-- An annotated row with no gene annotation and no length information
(incomplete after classification). -/
def aIncomplete : AnnotatedRow :=
  { Name := "N4", RCVaccession := "RCV2", GeneSymbol := "-", HGNC_ID := none,
    TranscriptID := none, CoordinateSpan := none, RepeatUnitLength := none,
    IsProteinHGVS := false, EnsemblGeneID := none, EnsemblGeneName := none,
    GeneAnnotationSource := none }

/-- An annotated row in protein HGVS notation. -/
def aProtein : AnnotatedRow := { aIncomplete with Name := "N5", IsProteinHGVS := true }

/-- An annotated row with `aComplete`'s RCV and gene but repeat unit length
4, so that it classifies to the other repeat type. -/
def aConflict : AnnotatedRow := { aComplete with Name := "N3", RepeatUnitLength := some 4 }

/-- The consequences row generated from `aComplete`. -/
def consW : ConsRow :=
  ⟨"RCV1", 1, "ENSG01", "G1", some "trinucleotide_repeat_expansion", 0⟩

/-! ### Shared lemmas -/

/-- Every member of a series is bounded by the series maximum. -/
lemma le_seriesMax {x : Nat} {l : List Nat} (hx : x ∈ l) :
    ∃ m, seriesMax l = some m ∧ x ≤ m := by
  induction l with
  | nil => cases hx
  | cons a t ih =>
    rcases List.mem_cons.mp hx with rfl | hxt
    · cases ht : seriesMax t with
      | none => exact ⟨x, by simp [seriesMax, ht], le_refl x⟩
      | some b => exact ⟨max x b, by simp [seriesMax, ht], le_max_left x b⟩
    · obtain ⟨m, hm, hxm⟩ := ih hxt
      cases ht : seriesMax t with
      | none => rw [ht] at hm; cases hm
      | some b =>
        rw [ht] at hm
        cases hm
        exact ⟨max a m, by simp [seriesMax, ht], le_trans hxm (le_max_right a m)⟩

/-- A list containing two distinct elements has at least two elements. -/
lemma two_mem_le_length {α : Type} {l : List α} {a b : α}
    (ha : a ∈ l) (hb : b ∈ l) (hne : a ≠ b) : 2 ≤ l.length := by
  match l with
  | [] => cases ha
  | [x] =>
    rw [List.mem_singleton] at ha hb
    exact absurd (ha.trans hb.symm) hne
  | x :: y :: t => simp [List.length_cons]

/-- Membership is invariant under `insertLe`. -/
lemma mem_insertLe {α : Type} (le : α → α → Bool) (a x : α) (l : List α) :
    x ∈ insertLe le a l ↔ x = a ∨ x ∈ l := by
  induction l with
  | nil => simp [insertLe]
  | cons b t ih =>
    by_cases h : le a b = true
    · simp [insertLe, h, List.mem_cons]
    · simp [insertLe, h, List.mem_cons, ih]; tauto

/-- Membership is invariant under `sortLe`. -/
lemma mem_sortLe {α : Type} (le : α → α → Bool) (x : α) (l : List α) :
    x ∈ sortLe le l ↔ x ∈ l := by
  induction l with
  | nil => simp [sortLe]
  | cons a t ih => simp [sortLe, mem_insertLe, List.mem_cons, ih]

/-- The image of one list element is an infix of the list's `flatMap`. -/
lemma flatMap_infix_of_mem {α β : Type} (f : α → List β) {r : α} {l : List α}
    (h : r ∈ l) : f r <:+: l.flatMap f := by
  induction l with
  | nil => cases h
  | cons a t ih =>
    rcases List.mem_cons.mp h with rfl | hrt
    · exact ⟨[], t.flatMap f, by simp [List.flatMap_cons]⟩
    · exact (ih hrt).trans ⟨f a, [], by simp [List.flatMap_cons]⟩

/-- Elimination of a successful run of the annotation resolver: the output
is the flat map of the per-record annotation followed by the gene-name
explode. -/
lemma annotate_ok_elim {svc : GeneLookupService} {variants : List VariantRecord}
    {out : List AnnotatedRow} (h : annotate_ensembl_gene_info svc variants = .ok out) :
    out = (variants.flatMap (annotate_record svc)).flatMap explode_gene_names := by
  unfold annotate_ensembl_gene_info at h
  cases hc : collect_hgnc_identifiers variants with
  | error e => rw [hc] at h; cases h
  | ok l =>
    rw [hc] at h
    by_cases hm : seriesMax
        (name_list_lengths (variants.flatMap (annotate_record svc))) = some 1
    · rw [if_pos hm] at h
      cases h
      rfl
    · rw [if_neg hm] at h; cases h

/-- Elimination of a successful run of the annotation resolver: the
gene-name uniqueness assertion held. -/
lemma annotate_ok_names {svc : GeneLookupService} {variants : List VariantRecord}
    {out : List AnnotatedRow} (h : annotate_ensembl_gene_info svc variants = .ok out) :
    seriesMax (name_list_lengths (variants.flatMap (annotate_record svc))) = some 1 := by
  unfold annotate_ensembl_gene_info at h
  cases hc : collect_hgnc_identifiers variants with
  | error e => rw [hc] at h; cases h
  | ok l =>
    rw [hc] at h
    by_cases hm : seriesMax
        (name_list_lengths (variants.flatMap (annotate_record svc))) = some 1
    · exact hm
    · rw [if_neg hm] at h; cases h

/-- A filled row passes through a later annotation pass unchanged. -/
lemma fillFrom_filled {svc : GeneLookupService} {dfCol bCol : String}
    {k : Option String} {st : AnnState} (h : st.EnsemblGeneIDs.isSome = true) :
    fillFrom svc dfCol bCol k st = st := by
  unfold fillFrom; rw [if_pos h]

/-- A record whose `HGNC_ID` passes the first pass's filter and resolves is
annotated by the first pass. -/
lemma annotate_record_ids_hgnc {svc : GeneLookupService} {r : VariantRecord} {h : String}
    (hh : r.HGNC_ID = some h) (hs : strStarts "HGNC:" h = true)
    (hq : svc "hgnc_id" h ≠ []) :
    annotate_record_ids svc r =
      { toVariantRecord := r, EnsemblGeneIDs := some (svc "hgnc_id" h),
        GeneAnnotationSource := some "HGNC_ID" } := by
  have e1 : hgnc_eligible r = some h := by simp [hgnc_eligible, hh, hs]
  have fill1 : fillFrom svc "HGNC_ID" "hgnc_id" (hgnc_eligible r)
      { toVariantRecord := r, EnsemblGeneIDs := none, GeneAnnotationSource := none } =
      { toVariantRecord := r, EnsemblGeneIDs := some (svc "hgnc_id" h),
        GeneAnnotationSource := some "HGNC_ID" } := by
    rw [e1]
    unfold fillFrom
    cases hsvc : svc "hgnc_id" h with
    | nil => exact absurd hsvc hq
    | cons a l => simp [hsvc]
  have h2 : fillFrom svc "GeneSymbol" "external_gene_name" (geneSymbol_eligible r)
      { toVariantRecord := r, EnsemblGeneIDs := some (svc "hgnc_id" h),
        GeneAnnotationSource := some "HGNC_ID" } =
      { toVariantRecord := r, EnsemblGeneIDs := some (svc "hgnc_id" h),
        GeneAnnotationSource := some "HGNC_ID" } := fillFrom_filled rfl
  have h3 : fillFrom svc "TranscriptID" "refseq_mrna" (transcript_eligible r)
      { toVariantRecord := r, EnsemblGeneIDs := some (svc "hgnc_id" h),
        GeneAnnotationSource := some "HGNC_ID" } =
      { toVariantRecord := r, EnsemblGeneIDs := some (svc "hgnc_id" h),
        GeneAnnotationSource := some "HGNC_ID" } := fillFrom_filled rfl
  unfold annotate_record_ids
  rw [fill1, h2, h3]

/-- Rows produced by `explode_gene_names` keep the source row's variant
columns, gene ID and annotation source. -/
lemma explode_gene_names_mem {row : AnnotatedRow} {rn : RowNamed}
    (h : row ∈ explode_gene_names rn) :
    row.toVariantRecord = rn.toVariantRecord ∧ row.EnsemblGeneID = rn.EnsemblGeneID ∧
      row.GeneAnnotationSource = rn.GeneAnnotationSource := by
  simp only [explode_gene_names, List.mem_map] at h
  obtain ⟨nm, _, rfl⟩ := h
  exact ⟨rfl, rfl, rfl⟩

/-- Rows produced by `annotate_record` keep the record's variant columns and
carry the annotation source of the three passes. -/
lemma annotate_record_mem {svc : GeneLookupService} {r : VariantRecord} {rn : RowNamed}
    (h : rn ∈ annotate_record svc r) :
    rn.toVariantRecord = r ∧
      rn.GeneAnnotationSource = (annotate_record_ids svc r).GeneAnnotationSource := by
  simp only [annotate_record, List.mem_map] at h
  obtain ⟨gid, _, rfl⟩ := h
  exact ⟨rfl, rfl⟩

/-- Membership in the groupby key list. -/
lemma mem_groupKeys_iff {rows : List ClassifiedRow} {k : String × String × String} :
    k ∈ groupKeys rows ↔ ∃ r ∈ rows, completeKey r = some k := by
  simp [groupKeys, List.mem_dedup, List.mem_filterMap]

/-- Membership in the repeat-type set of one group. -/
lemma mem_groupTypes_iff {rows : List ClassifiedRow} {k : String × String × String}
    {t : Option String} :
    t ∈ groupTypes rows k ↔ ∃ r ∈ rows, completeKey r = some k ∧ r.RepeatType = t := by
  simp only [groupTypes, List.mem_dedup, List.mem_filterMap]
  constructor
  · rintro ⟨r, hr, hf⟩
    by_cases hk : completeKey r = some k
    · rw [if_pos hk] at hf
      cases hf
      exact ⟨r, hr, hk, rfl⟩
    · rw [if_neg hk] at hf; cases hf
  · rintro ⟨r, hr, hk, rfl⟩
    exact ⟨r, hr, by rw [if_pos hk]⟩

/-- The classifier writes `RecordIsComplete` as the conjunction of the three
null tests of the row it returns. -/
lemma recordIsComplete_spec (row : AnnotatedRow) :
    (determine_repeat_type row).RecordIsComplete =
      ((determine_repeat_type row).EnsemblGeneID.isSome &&
        (determine_repeat_type row).EnsemblGeneName.isSome &&
        (determine_repeat_type row).RepeatType.isSome) := rfl

/-- The classifier only adds columns; the annotated columns of its output
row are those of its input row. -/
lemma determine_repeat_type_base (row : AnnotatedRow) :
    (determine_repeat_type row).toAnnotatedRow = row := rfl

/-- A NaN `HGNC_ID` cell anywhere in the input makes the first pass's
identifier collection raise. -/
lemma collect_hgnc_error : ∀ (variants : List VariantRecord) (r : VariantRecord),
    r ∈ variants → r.HGNC_ID = none →
    collect_hgnc_identifiers variants =
      .error "AttributeError: float object has no attribute startswith" := by
  intro variants
  induction variants with
  | nil => intro r h; cases h
  | cons a t ih =>
    intro r hmem hnull
    rcases List.mem_cons.mp hmem with rfl | hmt
    · unfold collect_hgnc_identifiers
      rw [hnull]
    · unfold collect_hgnc_identifiers
      cases ha : a.HGNC_ID with
      | none => rfl
      | some i => rw [ih r hmt hnull]

/-- The classifier's repeat type, written out as a function of the input
row's columns. -/
lemma determine_repeat_type_rt (row : AnnotatedRow) :
    (determine_repeat_type row).RepeatType =
      (if row.IsProteinHGVS then some "trinucleotide_repeat_expansion"
       else
         match (match row.RepeatUnitLength with
                | none => row.CoordinateSpan
                | some v => some v) with
         | some l =>
           if l % 3 = 0 then some "trinucleotide_repeat_expansion"
           else some "short_tandem_repeat_expansion"
         | none => none) := rfl

/-! ### Claims -/

/-- Claim C2: for every record with `isProteinHgvs` false, the classifier
takes the effective length to be `repeatUnitLength` when non-null and
`coordinateSpan` otherwise; when the effective length is defined the repeat
type is `trinucleotide_repeat_expansion` exactly when it is divisible by 3
(and `short_tandem_repeat_expansion` otherwise), and when it is undefined
the repeat type is null. -/
theorem modulo_three_classification :
    ∀ row : AnnotatedRow, row.IsProteinHGVS = false →
      (∀ l : Int,
        (match row.RepeatUnitLength with
         | none => row.CoordinateSpan
         | some v => some v) = some l →
        (((determine_repeat_type row).RepeatType =
            some "trinucleotide_repeat_expansion") ↔ l % 3 = 0)
        ∧ (¬ l % 3 = 0 →
            (determine_repeat_type row).RepeatType =
              some "short_tandem_repeat_expansion"))
      ∧ ((match row.RepeatUnitLength with
          | none => row.CoordinateSpan
          | some v => some v) = none →
         (determine_repeat_type row).RepeatType = none) := by
  intro row hp
  rw [determine_repeat_type_rt] at *
  rw [hp]
  have hne : ("short_tandem_repeat_expansion" : String) ≠
      "trinucleotide_repeat_expansion" := by decide
  constructor
  · intro l hl
    rw [hl]
    constructor
    · by_cases h3 : l % 3 = 0 <;> simp [h3, hne]
    · intro h3; simp [h3]
  · intro hn
    rw [hn]
    simp

/-- Witness for C2: a non-protein record with repeat unit length 3 is
trinucleotide, one of length 4 is a short tandem repeat, one with no length
information has a null repeat type. -/
theorem modulo_three_classification_w :
    ((determine_repeat_type aComplete).RepeatType =
        some "trinucleotide_repeat_expansion")
    ∧ ((determine_repeat_type aIncomplete).RepeatType = none) :=
  ⟨((modulo_three_classification aComplete rfl).1 3 rfl).1.mpr (by decide),
   (modulo_three_classification aIncomplete rfl).2 rfl⟩

/-- Claim C3: for every record with `isProteinHgvs` true, the classifier
assigns `trinucleotide_repeat_expansion` unconditionally, regardless of the
length fields. -/
theorem protein_notation_override :
    ∀ row : AnnotatedRow, row.IsProteinHGVS = true →
      (determine_repeat_type row).RepeatType = some "trinucleotide_repeat_expansion" := by
  intro row hp
  rw [determine_repeat_type_rt, hp]
  rfl

/-- Witness for C3: a protein-notation record with no length fields at all
still classifies as trinucleotide. -/
theorem protein_notation_override_w :
    (determine_repeat_type aProtein).RepeatType = some "trinucleotide_repeat_expansion" :=
  protein_notation_override aProtein rfl

/-- Claim C5: after classification, `recordIsComplete` is true exactly when
`ensemblGeneId`, `ensemblGeneName` and `repeatType` are all non-null. -/
theorem recordIsComplete_definition :
    ∀ row : AnnotatedRow,
      ((determine_repeat_type row).RecordIsComplete = true) ↔
        ((determine_repeat_type row).EnsemblGeneID ≠ none ∧
          (determine_repeat_type row).EnsemblGeneName ≠ none ∧
          (determine_repeat_type row).RepeatType ≠ none) := by
  intro row
  rw [recordIsComplete_spec]
  simp [Bool.and_eq_true, Option.isSome_iff_ne_none, and_assoc]

/-- Claim C9 (spec-modelled parser): the identifier parser is total — it is
a Lean function `String → ParsedIdentifier`, so every input (empty,
arbitrary, malformed) yields a structurally valid 4-tuple — and a name no
extraction strategy recognises yields all-null fields with
`isProteinHgvs = false`; the protein flag is only ever set on names the
protein recogniser accepts. -/
theorem parser_totality :
    ∀ s : String,
      ((isProteinHgvsName s = false ∧ extractTranscriptId s = none ∧
          extractCoordinateSpan s = none ∧ extractRepeatUnitLength s = none) →
        clinvar_identifier_parsing.parse_variant_identifier s = ⟨none, none, none, false⟩)
      ∧ ((clinvar_identifier_parsing.parse_variant_identifier s).isProteinHgvs = true →
          isProteinHgvsName s = true) := by
  intro s
  constructor
  · rintro ⟨h1, h2, h3, h4⟩
    unfold clinvar_identifier_parsing.parse_variant_identifier
    rw [h1]
    simp [h2, h3, h4]
  · intro h
    by_cases hn : isProteinHgvsName s
    · exact hn
    · unfold clinvar_identifier_parsing.parse_variant_identifier at h
      rw [if_neg hn] at h
      cases h

/-- Witness for C9: the empty string and a malformed name both parse to the
all-null default with `isProteinHgvs = false`. -/
theorem parser_totality_w :
    clinvar_identifier_parsing.parse_variant_identifier "" = ⟨none, none, none, false⟩
    ∧ clinvar_identifier_parsing.parse_variant_identifier "utterly %% malformed" =
        ⟨none, none, none, false⟩ :=
  ⟨(parser_totality "").1 ⟨by decide, by decide, by decide, by decide⟩,
   (parser_totality "utterly %% malformed").1 ⟨by decide, by decide, by decide, by decide⟩⟩

/-- Claim C10 (implicit): the gene resolver is total only when every
`HGNC_ID` cell is a string — the first pass's filter applies
`i.startswith('HGNC:')` with no null guard, so an input containing a record
with a NaN `HGNC_ID` makes `annotate_ensembl_gene_info` raise while
collecting the pass-1 identifier set instead of treating the record as
ineligible. -/
theorem hgnc_null_not_total :
    ∀ (svc : GeneLookupService) (variants : List VariantRecord) (r : VariantRecord),
      r ∈ variants → r.HGNC_ID = none →
      annotate_ensembl_gene_info svc variants =
        .error "AttributeError: float object has no attribute startswith" := by
  intro svc variants r hmem hnull
  unfold annotate_ensembl_gene_info
  rw [collect_hgnc_error variants r hmem hnull]

/-- Witness for C10: one NaN `HGNC_ID` record crashes the resolver even
under a service that would resolve nothing anyway. -/
theorem hgnc_null_not_total_w :
    annotate_ensembl_gene_info svcNull [rNull] =
      .error "AttributeError: float object has no attribute startswith" :=
  hgnc_null_not_total svcNull [rNull] rNull (by decide) (by decide)

/-- `flatMap` of a function returning singletons is a `map`. -/
lemma flatMap_singleton_eq_map {α β : Type} (f : α → List β) (g : α → β) (l : List α)
    (h : ∀ x ∈ l, f x = [g x]) : l.flatMap f = l.map g := by
  induction l with
  | nil => rfl
  | cons a t ih =>
    rw [List.flatMap_cons, h a (by simp), ih fun x hx => h x (by simp [hx])]
    rfl

/-- The rows `annotate_record` produces for a record annotated by the first
pass: one per resolved gene ID, each carrying that gene's name cell. -/
lemma annotate_record_hgnc {svc : GeneLookupService} {r : VariantRecord} {h : String}
    (hh : r.HGNC_ID = some h) (hs : strStarts "HGNC:" h = true)
    (hne : svc "hgnc_id" h ≠ []) :
    annotate_record svc r = (svc "hgnc_id" h).map fun g =>
      { toVariantRecord := r, EnsemblGeneID := some g,
        GeneAnnotationSource := some "HGNC_ID",
        EnsemblGeneNames := gene_name_cell svc (some g) } := by
  unfold annotate_record
  rw [annotate_record_ids_hgnc hh hs hne]
  cases hg : svc "hgnc_id" h with
  | nil => exact absurd hg hne
  | cons a l =>
    simp only [explodeCell, List.map_map]
    rfl

/-- Claim C1: the resolver's passes run in the fixed order `hgncId`,
`geneSymbol`, `transcriptId`, and a later pass never overwrites a filled
`ensemblGeneId` (first conjunct); consequently every output row whose
`hgncId` passes the filter and resolves through the lookup service has
`geneAnnotationSource = HGNC_ID` (second conjunct). -/
theorem gene_resolution_priority_precedence :
    (∀ (svc : GeneLookupService) (dfCol bCol : String) (k : Option String) (st : AnnState),
        st.EnsemblGeneIDs.isSome = true → fillFrom svc dfCol bCol k st = st)
    ∧ (∀ (svc : GeneLookupService) (variants : List VariantRecord) (out : List AnnotatedRow),
        annotate_ensembl_gene_info svc variants = Except.ok out →
        ∀ row ∈ out, ∀ h : String, row.HGNC_ID = some h →
          strStarts "HGNC:" h = true → svc "hgnc_id" h ≠ [] →
          row.GeneAnnotationSource = some "HGNC_ID") := by
  constructor
  · intro svc dfCol bCol k st hst
    exact fillFrom_filled hst
  · intro svc variants out hok row hrow h hh hs hq
    rw [annotate_ok_elim hok, List.mem_flatMap] at hrow
    obtain ⟨rn, hrn, hrow⟩ := hrow
    rw [List.mem_flatMap] at hrn
    obtain ⟨r, hr, hrn⟩ := hrn
    obtain ⟨hbase, _, hsrc⟩ := explode_gene_names_mem hrow
    obtain ⟨hbase2, hsrc2⟩ := annotate_record_mem hrn
    have hr2 : row.toVariantRecord = r := hbase.trans hbase2
    have hrh : r.HGNC_ID = some h := hr2 ▸ hh
    rw [hsrc, hsrc2, annotate_record_ids_hgnc hrh hs hq]

/-- Witness for C1: under `svcW` the record `rHgnc1` (whose `HGNC:1`
resolves, and whose gene symbol `AR` would not) comes out annotated with
source `HGNC_ID`. -/
theorem gene_resolution_priority_precedence_w :
    annotate_ensembl_gene_info svcW [rHgnc1] = Except.ok [outW1]
    ∧ outW1.GeneAnnotationSource = some "HGNC_ID" := by
  have hok : annotate_ensembl_gene_info svcW [rHgnc1] = Except.ok [outW1] := by rfl
  exact ⟨hok, gene_resolution_priority_precedence.2 svcW [rHgnc1] [outW1] hok outW1
    (by decide) "HGNC:1" (by decide) (by decide) (by decide)⟩

/-- Claim C8: a record whose key resolves to n gene IDs yields exactly n
rows — one per gene ID, differing only in `ensemblGeneId` and
`ensemblGeneName` (first conjunct, an explicit `map` over the gene ID
list) — and those rows appear contiguously in the resolver's output
(second conjunct). -/
theorem multi_gene_expansion :
    ∀ (svc : GeneLookupService) (r : VariantRecord) (h : String) (gids : List String),
      r.HGNC_ID = some h → strStarts "HGNC:" h = true →
      svc "hgnc_id" h = gids → gids ≠ [] →
      (∀ g ∈ gids, strStarts "ENSG" g = true ∧ ∃ nm, svc "ensembl_gene_id" g = [nm]) →
      ((annotate_record svc r).flatMap explode_gene_names =
        gids.map fun g =>
          { toVariantRecord := r, EnsemblGeneID := some g,
            EnsemblGeneName := (svc "ensembl_gene_id" g).head?,
            GeneAnnotationSource := some "HGNC_ID" })
      ∧ (∀ (variants : List VariantRecord) (out : List AnnotatedRow),
          r ∈ variants → annotate_ensembl_gene_info svc variants = Except.ok out →
          ((annotate_record svc r).flatMap explode_gene_names) <:+: out) := by
  intro svc r h gids hh hs hq hne hnames
  subst hq
  constructor
  · rw [annotate_record_hgnc hh hs hne]
    rw [List.flatMap_map]
    apply flatMap_singleton_eq_map
    intro g hg
    obtain ⟨hsg, nm, hnm⟩ := hnames g hg
    have hcell : gene_name_cell svc (some g) = some [nm] := by
      simp [gene_name_cell, hsg, hnm]
    show explode_gene_names _ = _
    unfold explode_gene_names
    simp only [hcell, hnm]
    rfl
  · intro variants out hrv hok
    rw [annotate_ok_elim hok, List.flatMap_assoc]
    exact flatMap_infix_of_mem (fun v => (annotate_record svc v).flatMap explode_gene_names) hrv

/-- Witness for C8: `HGNC:2` resolves to two genes under `svcW`, and the
one input record `rHgnc2` yields exactly the two rows of `outW2`, which are
the whole resolver output. -/
theorem multi_gene_expansion_w :
    ((annotate_record svcW rHgnc2).flatMap explode_gene_names = outW2)
    ∧ ((annotate_record svcW rHgnc2).flatMap explode_gene_names <:+: outW2) := by
  have hok : annotate_ensembl_gene_info svcW [rHgnc2] = Except.ok outW2 := by rfl
  have hnames : ∀ g ∈ ["ENSG02", "ENSG03"],
      strStarts "ENSG" g = true ∧ ∃ nm, svcW "ensembl_gene_id" g = [nm] := by
    intro g hg
    rcases List.mem_cons.mp hg with rfl | hg2
    · exact ⟨by decide, "G2", by decide⟩
    · rcases List.mem_cons.mp hg2 with rfl | hg3
      · exact ⟨by decide, "G3", by decide⟩
      · cases hg3
  have hthm := multi_gene_expansion svcW rHgnc2 "HGNC:2" ["ENSG02", "ENSG03"]
    (by decide) (by decide) (by decide) (by decide) hnames
  exact ⟨hthm.1.trans (by decide), hthm.1 ▸ hthm.2 [rHgnc2] outW2 (by decide) hok⟩

/-- Every element of a series is bounded by a successful `seriesMax`. -/
lemma seriesMax_all_le {l : List Nat} {m : Nat} (h : seriesMax l = some m) :
    ∀ x ∈ l, x ≤ m := by
  intro x hx
  obtain ⟨m2, hm2, hxm⟩ := le_seriesMax hx
  rw [h] at hm2
  cases hm2
  exact hxm

/-- When the repeat-type assertion holds, every group's type set is a
singleton. -/
lemma groupTypes_eq_singleton {rows : List ClassifiedRow} {k : String × String × String}
    (hmax : seriesMax ((groupKeys rows).map fun k => (groupTypes rows k).length) = some 1)
    (hk : k ∈ groupKeys rows) : ∃ t, groupTypes rows k = [t] := by
  have hle : (groupTypes rows k).length ≤ 1 :=
    seriesMax_all_le hmax _ (List.mem_map_of_mem _ hk)
  have hne : groupTypes rows k ≠ [] := by
    obtain ⟨r, hr, hck⟩ := mem_groupKeys_iff.mp hk
    have hmem : r.RepeatType ∈ groupTypes rows k := mem_groupTypes_iff.mpr ⟨r, hr, hck, rfl⟩
    intro h0
    rw [h0] at hmem
    cases hmem
  cases hgt : groupTypes rows k with
  | nil => exact absurd hgt hne
  | cons t ts =>
    cases ts with
    | nil => exact ⟨t, rfl⟩
    | cons t2 ts2 => rw [hgt] at hle; simp at hle

/-- Elimination of a successful `buildConsequences`: both assertions held
and the output is the sorted exploded group table. -/
lemma buildConsequences_ok_elim {rows : List ClassifiedRow} {cons : List ConsRow}
    (h : buildConsequences rows = .ok cons) :
    seriesMax ((groupKeys rows).map fun k => (groupTypes rows k).length) = some 1
    ∧ cons = sortLe consLe ((groupKeys rows).flatMap fun k =>
        (groupTypes rows k).map (consRowOf k))
    ∧ ∀ c ∈ cons, c.RepeatType.isSome = true := by
  unfold buildConsequences at h
  by_cases hm : seriesMax ((groupKeys rows).map fun k => (groupTypes rows k).length) = some 1
  · rw [if_pos hm] at h
    by_cases ha : (sortLe consLe ((groupKeys rows).flatMap fun k =>
        (groupTypes rows k).map (consRowOf k))).all (fun c => c.RepeatType.isSome) = true
    · rw [if_pos ha] at h
      cases h
      refine ⟨hm, rfl, ?_⟩
      intro c hc
      exact List.all_eq_true.mp ha c hc
    · rw [if_neg ha] at h
      cases h
  · rw [if_neg hm] at h
    cases h

/-- A successful `generate_output_files` comes from a successful
`buildConsequences` of the same consequences table. -/
lemma generate_ok_elim {rows : List ClassifiedRow} {cons : List ConsRow}
    (h : generate_output_files rows =
      ([FileOut.debugTable rows, FileOut.consequencesTable cons], none)) :
    buildConsequences rows = .ok cons := by
  unfold generate_output_files at h
  cases hb : buildConsequences rows with
  | error e =>
    rw [hb] at h
    have h2 := congrArg Prod.snd h
    simp at h2
  | ok cons2 =>
    rw [hb] at h
    have h1 := congrArg Prod.fst h
    simp only [List.cons.injEq, FileOut.consequencesTable.injEq, and_true] at h1
    rw [h1.2]

/-- Claim C4: a record contributes a row to the consequences table exactly
when its `recordIsComplete` flag is true (first conjunct), and every
consequences row comes from a complete record (second conjunct); the debug
table, written unconditionally, retains all records. -/
theorem completeness_gating :
    ∀ (rows : List AnnotatedRow) (cons : List ConsRow),
      generate_output_files (rows.map determine_repeat_type) =
        ([FileOut.debugTable (rows.map determine_repeat_type),
          FileOut.consequencesTable cons], none) →
      (∀ r ∈ rows.map determine_repeat_type,
        ((r.RecordIsComplete = true) ↔
          ∃ c ∈ cons, c.RCVaccession = r.RCVaccession ∧
            some c.EnsemblGeneID = r.EnsemblGeneID ∧
            some c.EnsemblGeneName = r.EnsemblGeneName ∧
            c.RepeatType = r.RepeatType))
      ∧ (∀ c ∈ cons, ∃ r ∈ rows.map determine_repeat_type,
          r.RecordIsComplete = true ∧ c.RCVaccession = r.RCVaccession ∧
          some c.EnsemblGeneID = r.EnsemblGeneID ∧
          some c.EnsemblGeneName = r.EnsemblGeneName ∧
          c.RepeatType = r.RepeatType) := by
  intro rows cons hgen
  obtain ⟨hmax, hcons, hall⟩ := buildConsequences_ok_elim (generate_ok_elim hgen)
  constructor
  · intro r hr
    constructor
    · intro hcomp
      obtain ⟨row, hrow, rfl⟩ := List.mem_map.mp hr
      have hspec := recordIsComplete_spec row
      rw [hcomp] at hspec
      have h3 := hspec.symm
      rw [Bool.and_eq_true, Bool.and_eq_true] at h3
      obtain ⟨⟨hg, hn⟩, ht⟩ := h3
      obtain ⟨g, hgid⟩ := Option.isSome_iff_exists.mp hg
      obtain ⟨n, hname⟩ := Option.isSome_iff_exists.mp hn
      have hck : completeKey (determine_repeat_type row) =
          some ((determine_repeat_type row).RCVaccession, g, n) := by
        unfold completeKey
        rw [if_pos hcomp, hgid, hname]
      have hkmem : ((determine_repeat_type row).RCVaccession, g, n) ∈
          groupKeys (rows.map determine_repeat_type) :=
        mem_groupKeys_iff.mpr ⟨_, hr, hck⟩
      obtain ⟨t, hgt⟩ := groupTypes_eq_singleton hmax hkmem
      have htmem : (determine_repeat_type row).RepeatType ∈
          groupTypes (rows.map determine_repeat_type)
            ((determine_repeat_type row).RCVaccession, g, n) :=
        mem_groupTypes_iff.mpr ⟨_, hr, hck, rfl⟩
      rw [hgt, List.mem_singleton] at htmem
      refine ⟨consRowOf ((determine_repeat_type row).RCVaccession, g, n) t, ?_, rfl,
        ?_, ?_, ?_⟩
      · rw [hcons, mem_sortLe, List.mem_flatMap]
        refine ⟨_, hkmem, ?_⟩
        rw [hgt]
        simp
      · exact hgid.symm
      · exact hname.symm
      · exact htmem.symm
    · rintro ⟨c, hc, hrcv, hgid, hname, ht⟩
      obtain ⟨row, hrow, rfl⟩ := List.mem_map.mp hr
      have hts := hall c hc
      rw [recordIsComplete_spec, Bool.and_eq_true, Bool.and_eq_true]
      refine ⟨⟨?_, ?_⟩, ?_⟩
      · rw [← hgid]; rfl
      · rw [← hname]; rfl
      · rw [← ht]; exact hts
  · intro c hc
    rw [hcons, mem_sortLe, List.mem_flatMap] at hc
    obtain ⟨k, hk, hc⟩ := hc
    rw [List.mem_map] at hc
    obtain ⟨t, htk, rfl⟩ := hc
    obtain ⟨r, hr, hck, hrt⟩ := mem_groupTypes_iff.mp htk
    by_cases hcomp : r.RecordIsComplete = true
    · unfold completeKey at hck
      rw [if_pos hcomp] at hck
      cases hg : r.EnsemblGeneID with
      | none => rw [hg] at hck; cases hck
      | some g =>
        cases hn : r.EnsemblGeneName with
        | none => rw [hg, hn] at hck; cases hck
        | some n =>
          rw [hg, hn] at hck
          injection hck with hck
          refine ⟨r, hr, hcomp, ?_, ?_, ?_, ?_⟩
          · rw [← hck]
            rfl
          · rw [← hck, hg]
            rfl
          · rw [← hck, hn]
            rfl
          · exact hrt.symm
    · unfold completeKey at hck
      rw [if_neg hcomp] at hck
      cases hck

/-- Witness for C4: with one complete and one incomplete record, the
complete one has a matching consequences row and the incomplete one has
none. -/
theorem completeness_gating_w :
    (∃ c ∈ [consW], c.RCVaccession = (determine_repeat_type aComplete).RCVaccession ∧
      some c.EnsemblGeneID = (determine_repeat_type aComplete).EnsemblGeneID ∧
      some c.EnsemblGeneName = (determine_repeat_type aComplete).EnsemblGeneName ∧
      c.RepeatType = (determine_repeat_type aComplete).RepeatType)
    ∧ ¬ (∃ c ∈ [consW], c.RCVaccession = (determine_repeat_type aIncomplete).RCVaccession ∧
      some c.EnsemblGeneID = (determine_repeat_type aIncomplete).EnsemblGeneID ∧
      some c.EnsemblGeneName = (determine_repeat_type aIncomplete).EnsemblGeneName ∧
      c.RepeatType = (determine_repeat_type aIncomplete).RepeatType) := by
  have hgen : generate_output_files ([aComplete, aIncomplete].map determine_repeat_type) =
      ([FileOut.debugTable ([aComplete, aIncomplete].map determine_repeat_type),
        FileOut.consequencesTable [consW]], none) := by rfl
  have hthm := completeness_gating [aComplete, aIncomplete] [consW] hgen
  constructor
  · exact (hthm.1 (determine_repeat_type aComplete) (by simp)).mp (by decide)
  · intro hex
    have hflag := (hthm.1 (determine_repeat_type aIncomplete) (by simp)).mpr hex
    exact absurd hflag (by decide)

/-- Claim C7: a gene ID resolving to more than one gene name makes
`annotate_ensembl_gene_info` fail (first conjunct), and a (RCV, gene) group
of complete records containing two distinct repeat types makes the
consequences construction fail (second conjunct); both failures carry a
message instead of emitting output for the offending records. -/
theorem integrity_violations_fatal :
    (∀ (svc : GeneLookupService) (variants : List VariantRecord) (rn : RowNamed)
        (l : List String),
        rn ∈ variants.flatMap (annotate_record svc) → rn.EnsemblGeneNames = some l →
        2 ≤ l.length →
        ∃ e, annotate_ensembl_gene_info svc variants = .error e)
    ∧ (∀ (rows : List ClassifiedRow) (r1 r2 : ClassifiedRow)
        (k : String × String × String),
        r1 ∈ rows → r2 ∈ rows → completeKey r1 = some k → completeKey r2 = some k →
        r1.RepeatType ≠ r2.RepeatType →
        ∃ e, buildConsequences rows = .error e) := by
  constructor
  · intro svc variants rn l hmem hnl hlen
    unfold annotate_ensembl_gene_info
    cases hc : collect_hgnc_identifiers variants with
    | error e => exact ⟨e, rfl⟩
    | ok ids =>
      have hmm : l.length ∈ name_list_lengths (variants.flatMap (annotate_record svc)) := by
        unfold name_list_lengths
        rw [List.mem_filterMap]
        exact ⟨rn, hmem, by rw [hnl]; rfl⟩
      obtain ⟨m, hm, hlm⟩ := le_seriesMax hmm
      have hne : seriesMax (name_list_lengths (variants.flatMap (annotate_record svc))) ≠
          some 1 := by
        rw [hm]
        intro hcontr
        injection hcontr with h1
        omega
      rw [if_neg hne]
      exact ⟨_, rfl⟩
  · intro rows r1 r2 k h1 h2 hk1 hk2 hne
    have ht1 : r1.RepeatType ∈ groupTypes rows k := mem_groupTypes_iff.mpr ⟨r1, h1, hk1, rfl⟩
    have ht2 : r2.RepeatType ∈ groupTypes rows k := mem_groupTypes_iff.mpr ⟨r2, h2, hk2, rfl⟩
    have hlen : 2 ≤ (groupTypes rows k).length := two_mem_le_length ht1 ht2 hne
    have hkmem : k ∈ groupKeys rows := mem_groupKeys_iff.mpr ⟨r1, h1, hk1⟩
    have hmm : (groupTypes rows k).length ∈
        (groupKeys rows).map fun k => (groupTypes rows k).length :=
      List.mem_map_of_mem _ hkmem
    obtain ⟨m, hm, hlm⟩ := le_seriesMax hmm
    have hnem : seriesMax ((groupKeys rows).map fun k => (groupTypes rows k).length) ≠
        some 1 := by
      rw [hm]
      intro hcontr
      injection hcontr with h1
      omega
    unfold buildConsequences
    rw [if_neg hnem]
    exact ⟨_, rfl⟩

/-- Witness for C7: a service mapping `ENSG01` to two names makes the
resolver fail, and two complete rows sharing (RCV, gene) with different
repeat types make the consequences construction fail. -/
theorem integrity_violations_fatal_w :
    (∃ e, annotate_ensembl_gene_info svcDupNames [rHgnc1] = .error e)
    ∧ (∃ e, buildConsequences
        [determine_repeat_type aComplete, determine_repeat_type aConflict] = .error e) := by
  constructor
  · exact integrity_violations_fatal.1 svcDupNames [rHgnc1]
      { toVariantRecord := rHgnc1, EnsemblGeneID := some "ENSG01",
        GeneAnnotationSource := some "HGNC_ID", EnsemblGeneNames := some ["G1", "G1b"] }
      ["G1", "G1b"] (by decide) (by decide) (by decide)
  · exact integrity_violations_fatal.2
      [determine_repeat_type aComplete, determine_repeat_type aConflict]
      (determine_repeat_type aComplete) (determine_repeat_type aConflict)
      ("RCV1", "ENSG01", "G1") (by decide) (by decide) (by decide) (by decide) (by decide)

/-- Counterexample for C6: on a repeat-type integrity violation the debug
table has already been written when the run aborts, so it is not the case
that no output file is written on a fatal error. -/
theorem fail_closed_atomicity_cex :
    (pipeline_main svcW [rHgnc1, rConflict]).2 =
      some "Multiple (RCV, gene) → variant type mappings!"
    ∧ (pipeline_main svcW [rHgnc1, rConflict]).1 ≠ [] := by
  exact ⟨by rfl, by decide⟩

/-- Claim C6 (amended): a failure inside the gene annotation resolver (the
gene-name integrity check or the pass-1 crash) aborts before any output
file is written; a failure inside `generate_output_files` (the repeat-type
integrity check) aborts after the debug table has been written but before
the consequences table; on any fatal error the consequences table is never
written. -/
theorem fail_closed_atomicity_amended :
    (∀ (svc : GeneLookupService) (variants : List VariantRecord) (e : String),
        annotate_ensembl_gene_info svc variants = .error e →
        pipeline_main svc variants = ([], some e))
    ∧ (∀ (rows : List ClassifiedRow) (e : String),
        (generate_output_files rows).2 = some e →
        (generate_output_files rows).1 = [FileOut.debugTable rows])
    ∧ (∀ (svc : GeneLookupService) (variants : List VariantRecord) (e : String)
        (cons : List ConsRow),
        (pipeline_main svc variants).2 = some e →
        FileOut.consequencesTable cons ∉ (pipeline_main svc variants).1) := by
  refine ⟨?_, ?_, ?_⟩
  · intro svc variants e he
    unfold pipeline_main
    rw [he]
  · intro rows e he
    unfold generate_output_files at he ⊢
    cases hb : buildConsequences rows with
    | error e2 => rfl
    | ok cons =>
      rw [hb] at he
      simp at he
  · intro svc variants e cons hpe
    unfold pipeline_main at hpe ⊢
    cases ha : annotate_ensembl_gene_info svc variants with
    | error e2 => simp
    | ok rows =>
      rw [ha] at hpe
      have hpe2 : (generate_output_files (rows.map determine_repeat_type)).2 = some e := hpe
      show FileOut.consequencesTable cons ∉
        (generate_output_files (rows.map determine_repeat_type)).1
      unfold generate_output_files at hpe2 ⊢
      cases hb : buildConsequences (rows.map determine_repeat_type) with
      | error e2 => simp
      | ok cons2 =>
        rw [hb] at hpe2
        simp at hpe2

/-- Witness for C6 (amended): a resolver failure writes nothing; the
repeat-type violation leaves exactly the debug table written; the
consequences table is absent from the output of the aborted run. -/
theorem fail_closed_atomicity_amended_w :
    pipeline_main svcNull [rNull] =
      ([], some "AttributeError: float object has no attribute startswith")
    ∧ (generate_output_files
        [determine_repeat_type aComplete, determine_repeat_type aConflict]).1 =
      [FileOut.debugTable [determine_repeat_type aComplete, determine_repeat_type aConflict]]
    ∧ FileOut.consequencesTable [consW] ∉ (pipeline_main svcW [rHgnc1, rConflict]).1 := by
  refine ⟨?_, ?_, ?_⟩
  · exact fail_closed_atomicity_amended.1 svcNull [rNull] _ (by rfl)
  · exact fail_closed_atomicity_amended.2.1
      [determine_repeat_type aComplete, determine_repeat_type aConflict] _ (by rfl)
  · exact fail_closed_atomicity_amended.2.2 svcW [rHgnc1, rConflict]
      "Multiple (RCV, gene) → variant type mappings!" [consW] (by rfl)
